import Mathlib

/-
  Verification of the wiki server in wiki.go (jtranate/GoLangTutorial).

  The Go program is shallowly embedded: the filesystem is an explicit state
  value threaded through every operation, Go byte slices are lists of
  naturals, and fallible operations return `Except IOError`.
-/

namespace Wiki

/-- Go's conversion of a string to a byte slice, modelled at the level of
code points (all titles and bodies in the claims are ASCII, where the two
coincide). -/
def strToBytes (s : String) : List Nat := s.toList.map Char.toNat

/-- The Page data structure of wiki.go: a Title and a Body byte slice. -/
structure Page where
  Title : String
  Body : List Nat
deriving DecidableEq, Repr

/-- Errors returned by filesystem operations. `notFound` is the
distinguished does-not-exist case (os.IsNotExist); `other` carries the
message of any other filesystem error. -/
inductive IOError where
  | notFound : IOError
  | other : String → IOError
deriving DecidableEq, Repr

/-- err.Error(): the message string of an error value. -/
def IOError.message : IOError → String
  | .notFound => "file does not exist"
  | .other m => m

/-- The filesystem state. `files` maps a path to its contents and its
permission bits (earlier entries shadow later ones, as List.lookup takes
the first match). `rerr` injects a non-notFound read failure at a path;
`werr` injects a write failure at a path. -/
structure FS where
  files : List (String × List Nat × Nat)
  rerr : List (String × String)
  werr : List (String × String)
deriving DecidableEq, Repr

/-- The contents and permissions currently stored at a path. -/
def FS.lookupFile (fs : FS) (path : String) : Option (List Nat × Nat) :=
  fs.files.lookup path

/-- ioutil.ReadFile: the full contents of the file at `path`, a notFound
error when no such file exists, or an injected other failure. -/
def FS.readFile (fs : FS) (path : String) : Except IOError (List Nat) :=
  match fs.rerr.lookup path with
  | some msg => .error (.other msg)
  | none =>
    match fs.files.lookup path with
    | some bp => .ok bp.1
    | none => .error .notFound

/-- ioutil.WriteFile: creates or truncates the file at `path` with contents
`b` and permission bits `perm`, or fails with an injected write error. -/
def FS.writeFile (fs : FS) (path : String) (b : List Nat) (perm : Nat) :
    Except IOError FS :=
  match fs.werr.lookup path with
  | some msg => .error (.other msg)
  | none => .ok { fs with files := (path, b, perm) :: fs.files }

/-- Page.save of wiki.go: writes the Body to "data/" ++ Title ++ ".txt"
with permission bits 0600. -/
def Page.save (p : Page) (fs : FS) : Except IOError FS :=
  let filename := "data/" ++ p.Title ++ ".txt"
  fs.writeFile filename p.Body 0o600

/-- loadPage of wiki.go: reads the file title ++ ".txt" (with no "data/"
in front) and wraps its contents in a Page with the given title. -/
def loadPage (title : String) (fs : FS) : Except IOError Page :=
  let filename := title ++ ".txt"
  match fs.readFile filename with
  | .error e => .error e
  | .ok body => .ok { Title := title, Body := body }

/-- An HTTP request, reduced to the parts wiki.go reads: the URL path and
the form data. -/
structure Request where
  path : String
  form : List (String × String)
deriving DecidableEq, Repr

/-- r.FormValue(key): the first form value for the key, or "" if absent. -/
def Request.formValue (r : Request) (key : String) : String :=
  (r.form.lookup key).getD ""

/-- The response written to the http.ResponseWriter by a handler:
a rendered template (name and Page value, the rendering collaborator being
external), an http.Redirect with location and status, an http.Error with
message and status, or http.NotFound. -/
inductive Response where
  | rendered : String → Page → Response
  | redirect : String → Nat → Response
  | httpError : String → Nat → Response
  | notFound : Response
deriving DecidableEq, Repr

/-- renderTemplate of wiki.go: executes the template tmpl ++ ".html" on
the Page. Template-execution failure belongs to the external rendering
collaborator and is not modelled. -/
def renderTemplate (tmpl : String) (p : Page) : Response :=
  .rendered (tmpl ++ ".html") p

/-- viewHandler of wiki.go: loads the page; on any load error redirects to
"/edit/" ++ title with status 302 (http.StatusFound); on success renders
the view template. -/
def viewHandler (r : Request) (title : String) (fs : FS) : Response × FS :=
  match loadPage title fs with
  | .error _ => (.redirect ("/edit/" ++ title) 302, fs)
  | .ok p => (renderTemplate "view" p, fs)

/-- editHandler of wiki.go: loads the page; on any load error substitutes
Page{Title: title} whose Body is the empty slice; renders the edit
template. -/
def editHandler (r : Request) (title : String) (fs : FS) : Response × FS :=
  match loadPage title fs with
  | .error _ => (renderTemplate "edit" { Title := title, Body := [] }, fs)
  | .ok p => (renderTemplate "edit" p, fs)

/-- saveHandler of wiki.go: builds a Page from the title and the submitted
"body" form field and saves it; on failure responds http.Error with the
error message and status 500; on success redirects to "/view/" ++ title
with status 302. -/
def saveHandler (r : Request) (title : String) (fs : FS) : Response × FS :=
  match (Page.mk title (strToBytes (r.formValue "body"))).save fs with
  | .error e => (.httpError e.message 500, fs)
  | .ok fs1 => (.redirect ("/view/" ++ title) 302, fs1)

/-- One attempted match of the regex ^/(edit|save|view)/([a-zA-Z0-9]+)$
after the action segment has been recognised: the rest of the path must be
one or more ASCII letters or digits. -/
def matchTitle (action : String) (t : List Char) :
    Option (String × List Char) :=
  if t.isEmpty then none
  else if t.all Char.isAlphanum then some (action, t) else none

/-- validPath.FindStringSubmatch on the character list of the path,
returning the two capture groups (action, title) on a match. Models the
anchored regex ^/(edit|save|view)/([a-zA-Z0-9]+)$. -/
def validFind : List Char → Option (String × List Char)
  | '/' :: 'e' :: 'd' :: 'i' :: 't' :: '/' :: t => matchTitle "edit" t
  | '/' :: 's' :: 'a' :: 'v' :: 'e' :: '/' :: t => matchTitle "save" t
  | '/' :: 'v' :: 'i' :: 'e' :: 'w' :: '/' :: t => matchTitle "view" t
  | _ => none

/-- The title validator at the String level: the capture groups of
validPath.FindStringSubmatch, or none when the path does not match. -/
def validPathMatch (p : String) : Option (String × String) :=
  (validFind p.toList).map (fun g => (g.1, String.mk g.2))

/-- The grammar of the validator regex, stated declaratively: the path is
"/", an action drawn from {edit, save, view}, "/", then a non-empty
all-alphanumeric title. -/
def grammarMatch (p : String) (a t : String) : Prop :=
  (a = "edit" ∨ a = "save" ∨ a = "view")
    ∧ t ≠ "" ∧ t.toList.all Char.isAlphanum
    ∧ p = "/" ++ a ++ "/" ++ t

/-- makeHandler of wiki.go: wraps a title-taking handler; runs the path
through validPath, responds http.NotFound when it does not match, and
otherwise calls the inner handler with the second capture group. -/
def makeHandler (fn : Request → String → FS → Response × FS)
    (r : Request) (fs : FS) : Response × FS :=
  match validPathMatch r.path with
  | none => (Response.notFound, fs)
  | some g => fn r g.2 fs

end Wiki

namespace Wiki

/-- matchTitle succeeds exactly on a non-empty all-alphanumeric tail,
echoing the action and the tail. -/
theorem matchTitle_eq_some_iff (a b : String) (t r : List Char) :
    matchTitle a t = some (b, r) ↔
      b = a ∧ r = t ∧ t ≠ [] ∧ t.all Char.isAlphanum := by
  unfold matchTitle
  split
  next hemp =>
    rw [List.isEmpty_iff] at hemp
    simp [hemp]
  next hemp =>
    rw [List.isEmpty_iff] at hemp
    split
    next hall =>
      simp only [Option.some.injEq, Prod.mk.injEq]
      constructor
      · rintro ⟨rfl, rfl⟩
        exact ⟨rfl, rfl, hemp, hall⟩
      · rintro ⟨rfl, rfl, -, -⟩
        exact ⟨rfl, rfl⟩
    next hall =>
      simp [hall]

/-- validFind succeeds exactly on character lists of the form
'/' :: action ++ '/' :: title with the action in {edit, save, view} and
the title non-empty and all-alphanumeric, returning the two groups. -/
theorem validFind_eq_some_iff (cs : List Char) (a : String) (t : List Char) :
    validFind cs = some (a, t) ↔
      (a = "edit" ∨ a = "save" ∨ a = "view")
        ∧ t ≠ [] ∧ t.all Char.isAlphanum
        ∧ cs = '/' :: (a.toList ++ '/' :: t) := by
  constructor
  · intro h
    unfold validFind at h
    split at h
    · rw [matchTitle_eq_some_iff] at h
      obtain ⟨rfl, rfl, hne, hall⟩ := h
      exact ⟨Or.inl rfl, hne, hall, rfl⟩
    · rw [matchTitle_eq_some_iff] at h
      obtain ⟨rfl, rfl, hne, hall⟩ := h
      exact ⟨Or.inr (Or.inl rfl), hne, hall, rfl⟩
    · rw [matchTitle_eq_some_iff] at h
      obtain ⟨rfl, rfl, hne, hall⟩ := h
      exact ⟨Or.inr (Or.inr rfl), hne, hall, rfl⟩
    · exact Option.noConfusion h
  · rintro ⟨ha, hne, hall, rfl⟩
    rcases ha with rfl | rfl | rfl
    · show matchTitle "edit" t = some ("edit", t)
      rw [matchTitle_eq_some_iff]
      exact ⟨rfl, rfl, hne, hall⟩
    · show matchTitle "save" t = some ("save", t)
      rw [matchTitle_eq_some_iff]
      exact ⟨rfl, rfl, hne, hall⟩
    · show matchTitle "view" t = some ("view", t)
      rw [matchTitle_eq_some_iff]
      exact ⟨rfl, rfl, hne, hall⟩

/-- The character list of a path assembled from the grammar's pieces. -/
theorem data_slash_decomp (a : String) (cs : List Char) :
    ("/" ++ a ++ "/" ++ String.mk cs).data = '/' :: (a.toList ++ '/' :: cs) := by
  rw [String.data_append, String.data_append, String.data_append]
  have h1 : "/".data = ['/'] := rfl
  have h2 : (String.mk cs).data = cs := rfl
  rw [h1, h2]
  simp only [List.append_assoc, List.singleton_append]
  rfl

/-- The String-level validator succeeds exactly on the grammar of the
regex, returning the action and the captured title. -/
theorem validPathMatch_eq_some_iff (p : String) (a t : String) :
    validPathMatch p = some (a, t) ↔ grammarMatch p a t := by
  unfold validPathMatch grammarMatch
  rw [Option.map_eq_some']
  constructor
  · rintro ⟨⟨a1, t1⟩, hf, hg⟩
    cases hg
    rw [validFind_eq_some_iff] at hf
    obtain ⟨ha, hne, hall, hcs⟩ := hf
    refine ⟨ha, ?_, hall, ?_⟩
    · intro hcontra
      exact hne (congrArg String.data hcontra)
    · apply String.ext
      rw [data_slash_decomp]
      exact hcs
  · rintro ⟨ha, hne, hall, rfl⟩
    refine ⟨(a, t.toList), ?_, ?_⟩
    · rw [validFind_eq_some_iff]
      have hd : ("/" ++ a ++ "/" ++ t).toList
          = '/' :: (a.toList ++ '/' :: t.toList) := data_slash_decomp a t.toList
      refine ⟨ha, ?_, hall, hd⟩
      intro hcontra
      exact hne (String.ext hcontra)
    · rfl

/-- The validator fails exactly when no decomposition matches the
grammar. -/
theorem validPathMatch_eq_none_iff (p : String) :
    validPathMatch p = none ↔ ∀ a t, ¬ grammarMatch p a t := by
  constructor
  · intro h a t hg
    rw [← validPathMatch_eq_some_iff] at hg
    rw [h] at hg
    exact Option.noConfusion hg
  · intro h
    cases hm : validPathMatch p with
    | none => rfl
    | some g =>
      exact absurd ((validPathMatch_eq_some_iff p g.1 g.2).mp hm) (h g.1 g.2)

/-- C1: saving Page{"TestPage", "hi"} into an empty filesystem succeeds,
writing "data/TestPage.txt", but the subsequent loadPage "TestPage" reads
"TestPage.txt" and fails with notFound: the save/load round trip of the
spec fails because save prepends "data/" to the filename and loadPage does
not. -/
theorem save_then_load_fails_on_TestPage :
    Page.save ⟨"TestPage", strToBytes "hi"⟩ ⟨[], [], []⟩
      = .ok ⟨[("data/TestPage.txt", strToBytes "hi", 0o600)], [], []⟩
    ∧ loadPage "TestPage" ⟨[("data/TestPage.txt", strToBytes "hi", 0o600)], [], []⟩
      = .error IOError.notFound := by
  exact ⟨rfl, rfl⟩

/-- C4: the title validator accepts exactly the paths matching
^/(edit|save|view)/([A-Za-z0-9]+)$ and returns the action and the captured
title; "/view/FrontPage" yields (view, "FrontPage") while
"/view/../etc/passwd" and "/delete/FrontPage" yield no match. -/
theorem validator_characterization :
    validPathMatch "/view/FrontPage" = some ("view", "FrontPage")
    ∧ validPathMatch "/view/../etc/passwd" = none
    ∧ validPathMatch "/delete/FrontPage" = none
    ∧ ∀ p a t, validPathMatch p = some (a, t) ↔ grammarMatch p a t :=
  ⟨rfl, rfl, rfl, validPathMatch_eq_some_iff⟩

/-- Witness for C4: the characterization applied at the concrete path
"/edit/A". -/
theorem validator_characterization_witness :
    validPathMatch "/edit/A" = some ("edit", "A") :=
  (validator_characterization.2.2.2 "/edit/A" "edit" "A").mpr
    ⟨Or.inl rfl, by decide, by decide, by decide⟩

/-- C3: for every raw path with no grammar decomposition, the wrapped
handler responds notFound with the filesystem untouched, uniformly in the
inner handler fn — so fn, and through it any Page Store operation, is
never invoked. -/
theorem makeHandler_rejects_invalid
    (fn : Request → String → FS → Response × FS) (r : Request) (fs : FS)
    (h : ∀ a t, ¬ grammarMatch r.path a t) :
    makeHandler fn r fs = (Response.notFound, fs) := by
  unfold makeHandler
  rw [(validPathMatch_eq_none_iff r.path).mpr h]

/-- Witness for C3: the request path "/delete/FrontPage" is rejected and
saveHandler is never run. -/
theorem makeHandler_rejects_invalid_witness :
    makeHandler saveHandler ⟨"/delete/FrontPage", []⟩ ⟨[], [], []⟩
      = (Response.notFound, ⟨[], [], []⟩) :=
  makeHandler_rejects_invalid saveHandler ⟨"/delete/FrontPage", []⟩ ⟨[], [], []⟩
    ((validPathMatch_eq_none_iff "/delete/FrontPage").mp rfl)

/-- C9: every dispatch either responds notFound with the state untouched,
or hands the inner handler a title that is non-empty, entirely ASCII
alphanumeric, and therefore free of '/', '.', and backslash — no path
traversal can reach the Page Store through the dispatcher. -/
theorem makeHandler_title_safe
    (fn : Request → String → FS → Response × FS) (r : Request) (fs : FS) :
    makeHandler fn r fs = (Response.notFound, fs)
    ∨ ∃ a t, validPathMatch r.path = some (a, t)
        ∧ makeHandler fn r fs = fn r t fs
        ∧ t ≠ ""
        ∧ (∀ c ∈ t.toList, c.isAlphanum)
        ∧ '/' ∉ t.toList ∧ '.' ∉ t.toList ∧ '\\' ∉ t.toList := by
  cases hm : validPathMatch r.path with
  | none =>
    left
    unfold makeHandler
    rw [hm]
  | some g =>
    right
    obtain ⟨a1, t1⟩ := g
    obtain ⟨-, hne, hall, -⟩ :=
      (validPathMatch_eq_some_iff r.path a1 t1).mp hm
    have hmem : ∀ c ∈ t1.toList, c.isAlphanum := fun c hc =>
      List.all_eq_true.mp hall c hc
    refine ⟨a1, t1, rfl, ?_, hne, hmem, ?_, ?_, ?_⟩
    · unfold makeHandler
      rw [hm]
    · intro hd
      exact absurd (hmem '/' hd) (by decide)
    · intro hd
      exact absurd (hmem '.' hd) (by decide)
    · intro hd
      exact absurd (hmem '\\' hd) (by decide)

/-- C2 is false as stated: with a non-notFound read failure injected on
"T.txt", loadPage fails with a permission error, yet viewHandler responds
with the redirect to /edit/T and not with a server error. -/
theorem viewHandler_other_error_cex :
    loadPage "T" ⟨[], [("T.txt", "permission denied")], []⟩
      = .error (IOError.other "permission denied")
    ∧ viewHandler ⟨"/view/T", []⟩ "T" ⟨[], [("T.txt", "permission denied")], []⟩
      = (Response.redirect "/edit/T" 302,
         ⟨[], [("T.txt", "permission denied")], []⟩) :=
  ⟨rfl, rfl⟩

/-- C2 (amended): viewHandler redirects to /edit/title with status 302 on
every load failure — notFound or any other error alike — and renders the
view template on success; a load failure never yields a server error. -/
theorem viewHandler_behavior (r : Request) (t : String) (fs : FS) :
    (∀ e, loadPage t fs = .error e →
      viewHandler r t fs = (.redirect ("/edit/" ++ t) 302, fs))
    ∧ ∀ p, loadPage t fs = .ok p →
      viewHandler r t fs = (renderTemplate "view" p, fs) := by
  unfold viewHandler
  constructor
  · intro e he
    rw [he]
  · intro p hp
    rw [hp]

/-- Witness for C2: viewHandler on the missing page "T" over the empty
filesystem issues the redirect. -/
theorem viewHandler_behavior_witness :
    viewHandler ⟨"/view/T", []⟩ "T" ⟨[], [], []⟩
      = (Response.redirect "/edit/T" 302, ⟨[], [], []⟩) :=
  (viewHandler_behavior ⟨"/view/T", []⟩ "T" ⟨[], [], []⟩).1 IOError.notFound rfl

/-- C6 is false as stated: the page file saved under the "data/" storage
root is present, yet loadPage does not look there and fails with
notFound. -/
theorem loadPage_ignores_storage_root_cex :
    FS.lookupFile ⟨[("data/T.txt", strToBytes "x", 0o600)], [], []⟩
        ("data/" ++ "T" ++ ".txt")
      = some (strToBytes "x", 0o600)
    ∧ loadPage "T" ⟨[("data/T.txt", strToBytes "x", 0o600)], [], []⟩
      = .error IOError.notFound :=
  ⟨rfl, rfl⟩

/-- C6 (amended): loadPage reads the file title ++ ".txt" with no storage
root in front of it; an injected non-notFound failure propagates with its
message, a present file yields a Page with the argument title and the
file's contents, and an absent file yields notFound. -/
theorem loadPage_behavior (t : String) (fs : FS) :
    (∀ msg, fs.rerr.lookup (t ++ ".txt") = some msg →
      loadPage t fs = .error (.other msg))
    ∧ (fs.rerr.lookup (t ++ ".txt") = none →
        (∀ b pm, fs.files.lookup (t ++ ".txt") = some (b, pm) →
          loadPage t fs = .ok ⟨t, b⟩)
        ∧ (fs.files.lookup (t ++ ".txt") = none →
          loadPage t fs = .error .notFound)) := by
  constructor
  · intro msg h
    simp only [loadPage, FS.readFile, h]
  · intro h
    constructor
    · intro b pm hb
      simp only [loadPage, FS.readFile, h, hb]
    · intro hb
      simp only [loadPage, FS.readFile, h, hb]

/-- Witness for C6: the three branches of loadPage at concrete
filesystems. -/
theorem loadPage_behavior_witness :
    loadPage "A" ⟨[("A.txt", strToBytes "b", 0o600)], [], []⟩
      = .ok ⟨"A", strToBytes "b"⟩
    ∧ loadPage "B" ⟨[], [], []⟩ = .error IOError.notFound
    ∧ loadPage "C" ⟨[], [("C.txt", "disk error")], []⟩
      = .error (IOError.other "disk error") :=
  ⟨((loadPage_behavior "A" ⟨[("A.txt", strToBytes "b", 0o600)], [], []⟩).2
      rfl).1 (strToBytes "b") 0o600 rfl,
   ((loadPage_behavior "B" ⟨[], [], []⟩).2 rfl).2 rfl,
   (loadPage_behavior "C" ⟨[], [("C.txt", "disk error")], []⟩).1
     "disk error" rfl⟩

/-- C7: editHandler renders the edit template with an empty body when the
load fails (the new-page path, not an error response), and renders it with
the loaded page when the load succeeds. -/
theorem editHandler_behavior (r : Request) (t : String) (fs : FS) :
    (∀ e, loadPage t fs = .error e →
      editHandler r t fs = (renderTemplate "edit" ⟨t, []⟩, fs))
    ∧ ∀ p, loadPage t fs = .ok p →
      editHandler r t fs = (renderTemplate "edit" p, fs) := by
  unfold editHandler
  constructor
  · intro e he
    rw [he]
  · intro p hp
    rw [hp]

/-- Witness for C7: editing a missing page renders a blank form; editing
an existing page renders its stored body. -/
theorem editHandler_behavior_witness :
    editHandler ⟨"/edit/T", []⟩ "T" ⟨[], [], []⟩
      = (renderTemplate "edit" ⟨"T", []⟩, ⟨[], [], []⟩)
    ∧ editHandler ⟨"/edit/A", []⟩ "A" ⟨[("A.txt", strToBytes "b", 0o600)], [], []⟩
      = (renderTemplate "edit" ⟨"A", strToBytes "b"⟩,
         ⟨[("A.txt", strToBytes "b", 0o600)], [], []⟩) :=
  ⟨(editHandler_behavior ⟨"/edit/T", []⟩ "T" ⟨[], [], []⟩).1
      IOError.notFound rfl,
   (editHandler_behavior ⟨"/edit/A", []⟩ "A"
      ⟨[("A.txt", strToBytes "b", 0o600)], [], []⟩).2
      ⟨"A", strToBytes "b"⟩ rfl⟩

/-- C8: saveHandler builds the Page from the submitted "body" form field
and saves it; on failure it responds with an http.Error carrying the
failure message at status 500 and leaves the filesystem untouched, with no
redirect; on success it redirects to /view/title with status 302. -/
theorem saveHandler_behavior (r : Request) (t : String) (fs : FS) :
    (∀ e, Page.save ⟨t, strToBytes (r.formValue "body")⟩ fs = .error e →
      saveHandler r t fs = (.httpError e.message 500, fs))
    ∧ ∀ fs1, Page.save ⟨t, strToBytes (r.formValue "body")⟩ fs = .ok fs1 →
      saveHandler r t fs = (.redirect ("/view/" ++ t) 302, fs1) := by
  unfold saveHandler
  constructor
  · intro e he
    rw [he]
  · intro fs1 h1
    rw [h1]

/-- Witness for C8: a successful save of the submitted body redirects to
the view page, and an injected write failure surfaces as a 500 with the
failure message. -/
theorem saveHandler_behavior_witness :
    saveHandler ⟨"/save/T", [("body", "hi")]⟩ "T" ⟨[], [], []⟩
      = (Response.redirect "/view/T" 302,
         ⟨[("data/T.txt", strToBytes "hi", 0o600)], [], []⟩)
    ∧ saveHandler ⟨"/save/T", [("body", "hi")]⟩ "T"
        ⟨[], [], [("data/T.txt", "disk full")]⟩
      = (Response.httpError "disk full" 500,
         ⟨[], [], [("data/T.txt", "disk full")]⟩) :=
  ⟨(saveHandler_behavior ⟨"/save/T", [("body", "hi")]⟩ "T" ⟨[], [], []⟩).2
      ⟨[("data/T.txt", strToBytes "hi", 0o600)], [], []⟩ rfl,
   (saveHandler_behavior ⟨"/save/T", [("body", "hi")]⟩ "T"
      ⟨[], [], [("data/T.txt", "disk full")]⟩).1
      (IOError.other "disk full") rfl⟩

/-- C5: Page.save writes the Body verbatim to "data/" ++ Title ++ ".txt"
(the storage root being "data/") with permission bits 0600, creating or
truncating the entry, and returns an error exactly when the underlying
filesystem write fails. -/
theorem save_behavior (p : Page) (fs : FS) :
    (∀ fs1, p.save fs = .ok fs1 →
      fs1.lookupFile ("data/" ++ p.Title ++ ".txt") = some (p.Body, 0o600))
    ∧ ((∃ e, p.save fs = .error e)
        ↔ fs.werr.lookup ("data/" ++ p.Title ++ ".txt") ≠ none) := by
  cases hw : fs.werr.lookup ("data/" ++ p.Title ++ ".txt") with
  | some msg =>
    constructor
    · intro fs1 h1
      simp only [Page.save, FS.writeFile, hw] at h1
      exact Except.noConfusion h1
    · constructor
      · intro _
        simp
      · intro _
        exact ⟨.other msg, by simp only [Page.save, FS.writeFile, hw]⟩
  | none =>
    constructor
    · intro fs1 h1
      simp only [Page.save, FS.writeFile, hw] at h1
      injection h1 with h1
      subst h1
      unfold FS.lookupFile
      simp [List.lookup]
    · constructor
      · rintro ⟨e, he⟩
        simp only [Page.save, FS.writeFile, hw] at he
        exact Except.noConfusion he
      · intro hcontra
        exact absurd rfl hcontra

/-- Witness for C5: saving Page{"T", "x"} into the empty filesystem leaves
"x" with permissions 0600 at "data/T.txt", and an injected write failure
makes save return an error. -/
theorem save_behavior_witness :
    FS.lookupFile ⟨[("data/T.txt", strToBytes "x", 0o600)], [], []⟩
        ("data/" ++ "T" ++ ".txt")
      = some (strToBytes "x", 0o600)
    ∧ List.lookup ("data/" ++ "T" ++ ".txt") [("data/T.txt", "disk full")]
        ≠ none :=
  ⟨(save_behavior ⟨"T", strToBytes "x"⟩ ⟨[], [], []⟩).1
      ⟨[("data/T.txt", strToBytes "x", 0o600)], [], []⟩ rfl,
   (save_behavior ⟨"T", strToBytes "x"⟩
      ⟨[], [], [("data/T.txt", "disk full")]⟩).2.mp
     ⟨IOError.other "disk full", rfl⟩⟩

/-- C10: a successful save adds exactly the one entry for its own path
and leaves the contents observed at every other path, and both error
tables, unchanged; loadPage reads only the entry at title ++ ".txt" — two
filesystems agreeing there give the same load result. -/
theorem store_frame (p : Page) (fs fs1 : FS) (t : String) (fsa fsb : FS) :
    (p.save fs = .ok fs1 →
      fs1.lookupFile ("data/" ++ p.Title ++ ".txt") = some (p.Body, 0o600)
      ∧ (∀ q, q ≠ "data/" ++ p.Title ++ ".txt" →
          fs1.lookupFile q = fs.lookupFile q)
      ∧ fs1.rerr = fs.rerr ∧ fs1.werr = fs.werr)
    ∧ (fsa.files.lookup (t ++ ".txt") = fsb.files.lookup (t ++ ".txt") →
       fsa.rerr.lookup (t ++ ".txt") = fsb.rerr.lookup (t ++ ".txt") →
       loadPage t fsa = loadPage t fsb) := by
  constructor
  · intro h1
    cases hw : fs.werr.lookup ("data/" ++ p.Title ++ ".txt") with
    | some msg =>
      simp only [Page.save, FS.writeFile, hw] at h1
      exact Except.noConfusion h1
    | none =>
      simp only [Page.save, FS.writeFile, hw] at h1
      injection h1 with h1
      subst h1
      refine ⟨?_, ?_, rfl, rfl⟩
      · unfold FS.lookupFile
        simp [List.lookup]
      · intro q hq
        unfold FS.lookupFile
        have hbeq : (q == "data/" ++ p.Title ++ ".txt") = false :=
          beq_eq_false_iff_ne.mpr hq
        simp only [List.lookup, hbeq]
  · intro hf hr
    simp only [loadPage, FS.readFile, hf, hr]

/-- Witness for C10: a save leaves the unrelated entry "other.txt"
untouched, and loadPage gives the same answer on two filesystems agreeing
at "T.txt". -/
theorem store_frame_witness :
    FS.lookupFile ⟨[("data/T.txt", strToBytes "x", 0o600),
        ("other.txt", strToBytes "y", 0o600)], [], []⟩ "other.txt"
      = FS.lookupFile ⟨[("other.txt", strToBytes "y", 0o600)], [], []⟩
          "other.txt"
    ∧ loadPage "T" ⟨[("T.txt", strToBytes "z", 0o600)], [], []⟩
      = loadPage "T" ⟨[("T.txt", strToBytes "z", 0o600),
          ("junk.txt", strToBytes "w", 0o600)], [], []⟩ :=
  ⟨((store_frame ⟨"T", strToBytes "x"⟩
      ⟨[("other.txt", strToBytes "y", 0o600)], [], []⟩
      ⟨[("data/T.txt", strToBytes "x", 0o600),
        ("other.txt", strToBytes "y", 0o600)], [], []⟩
      "T" ⟨[], [], []⟩ ⟨[], [], []⟩).1 rfl).2.1 "other.txt" (by decide),
   (store_frame ⟨"T", strToBytes "x"⟩ ⟨[], [], []⟩ ⟨[], [], []⟩ "T"
      ⟨[("T.txt", strToBytes "z", 0o600)], [], []⟩
      ⟨[("T.txt", strToBytes "z", 0o600),
        ("junk.txt", strToBytes "w", 0o600)], [], []⟩).2 rfl rfl⟩

end Wiki
